import Mathlib

/-
Verification development for the LinkedDataSignature proof engine
(src/lib/suites.js and src/lib/suites/Ed25519Signature2018.js).

The JavaScript code is shallowly embedded: JS runtime values become the
inductive type JSVal, JS objects become ordered association lists, thrown
exceptions become Except, and the external collaborators the engine calls
(jsonld.canonize, jsonld.frame, jsonld.compact, the digest, the signing and
verification primitives, the proof purpose) are passed in as a record of
functions, mirroring how the code receives them through documentLoader,
purpose and subclass hooks.
-/

namespace JsonldSignatures

/-- JavaScript runtime values as the library manipulates them: undefined,
null, booleans, (integral) numbers, strings, Date objects (modelled by their
timestamp) and plain objects as ordered key-value lists. -/
inductive JSVal : Type where
  | undef : JSVal
  | null : JSVal
  | bool : Bool → JSVal
  | num : Int → JSVal
  | str : String → JSVal
  | jsdate : Int → JSVal
  | obj : List (String × JSVal) → JSVal
deriving Repr

/-- A JS object: an ordered list of key-value pairs. -/
abbrev Obj : Type := List (String × JSVal)

/-- The JS test v === undefined. -/
def isUndef : JSVal → Bool
  | .undef => true
  | _ => false

/-- JS truthiness: undefined, null, false, 0 and the empty string are falsy. -/
def truthy : JSVal → Bool
  | .undef => false
  | .null => false
  | .bool b => b
  | .num n => n != 0
  | .str s => s != ""
  | .jsdate _ => true
  | .obj _ => true

/-- The JS typeof operator; note that typeof null is "object". -/
def jsTypeof : JSVal → String
  | .undef => "undefined"
  | .null => "object"
  | .bool _ => "boolean"
  | .num _ => "number"
  | .str _ => "string"
  | .jsdate _ => "object"
  | .obj _ => "object"

/-- Reading property k of an object: the first binding for k, else undefined
(JS reports a missing property and a property set to undefined identically). -/
def lookupField (o : Obj) (k : String) : JSVal :=
  match o.find? (fun p => p.1 == k) with
  | some p => p.2
  | none => (.undef)

/-- The JS delete operator on an object: every binding for k is removed. -/
def deleteField (o : Obj) (k : String) : Obj :=
  o.filter (fun p => p.1 != k)

/-- JS property assignment o[k] = v: overwrite in place when k is bound,
append otherwise (JS objects keep insertion order for string keys). -/
def setField (o : Obj) (k : String) (v : JSVal) : Obj :=
  if (o.find? (fun p => p.1 == k)).isSome then
    o.map (fun p => if p.1 == k then (k, v) else p)
  else
    o ++ [(k, v)]

/-- Values thrown by the engine or its collaborators: TypeError for the
constructor checks and null-property access, plain Error for the runtime
failures. -/
inductive JSError : Type where
  | typeError : String → JSError
  | jsError : String → JSError
deriving Repr, DecidableEq

/-- Reading property k of an arbitrary JS value: objects yield the bound
value or undefined, primitives yield undefined, and null or undefined as the
base raises a TypeError, exactly as in JS. -/
def getProp : JSVal → String → Except JSError JSVal
  | .undef, k => .error (.typeError ("Cannot read properties of undefined (reading " ++ k ++ ")"))
  | .null, k => .error (.typeError ("Cannot read properties of null (reading " ++ k ++ ")"))
  | .obj fs, k => .ok (lookupField fs k)
  | _, _ => .ok (.undef)

/-- String conversion used by the template literal in the not-found error. -/
def jsStr : JSVal → String
  | .undef => "undefined"
  | .null => "null"
  | .bool b => if b then "true" else "false"
  | .num n => toString n
  | .str s => s
  | .jsdate t => "Date(" ++ toString t ++ ")"
  | .obj _ => "[object Object]"

/-- Result of ProofPurpose.validate: a validity flag and an optional error
value (none models a purpose result whose error field is undefined). -/
structure PurposeResult : Type where
  valid : Bool
  error : Option JSError
deriving Repr, DecidableEq

/-- Modelled from the spec: the digest and byte concatenation used by
createVerifyData live in util.js, which is not under src/; per the spec the
digest is an external fixed-output hash over byte strings and the two hashes
are concatenated, so bytes are lists of naturals and concatenation is list
append. -/
def concatBytes (a b : List Nat) : List Nat := a ++ b

/-- The external collaborators one createProof or verifyProof call uses,
with documentLoader and expansionMap already closed over: jsonld.canonize
(taking the useNativeCanonize flag), the sha256 digest, jsonld.frame of a
verification method identifier (ok none when the framed result is falsy),
the subclass verifySignature and sign hooks, the proof purpose hooks,
jsonld.compact of the proof template, util.w3cDate and the current time. -/
structure Collab : Type where
  jsonldCanonize : JSVal → Bool → Except JSError String
  sha256 : String → List Nat
  frame : JSVal → Except JSError (Option Obj)
  verifySignature : List Nat → Obj → Obj → Except JSError JSVal
  purposeValidate : Obj → Obj → Except JSError PurposeResult
  purposeUpdate : Obj → Except JSError Obj
  sign : List Nat → Obj → Except JSError Obj
  compact : JSVal → Except JSError Obj
  w3cDate : JSVal → String
  now : Int

/-- Per-session suite configuration, the fields the constructor sets. -/
structure LinkedDataSignature : Type where
  type : String
  creator : JSVal
  verificationMethod : JSVal
  proof : JSVal
  date : JSVal
  useNativeCanonize : JSVal
deriving Repr

namespace LinkedDataSignature

/-- The security context URL constant used for fresh proofs. -/
def securityContextUrl : String := "https://w3id.org/security/v2"

/-- LinkedDataSignature.canonize: jsonld.canonize with the URDNA2015
algorithm, passing the useNativeCanonize flag of the suite. -/
def canonize (c : Collab) (s : LinkedDataSignature) (input : JSVal) :
    Except JSError String :=
  c.jsonldCanonize input (truthy s.useNativeCanonize)

/-- The three successive deletes of canonizeProof, applied to the shallow
copy of the proof: jws, signatureValue and proofValue are removed. -/
def stripSignatureFields (proof : Obj) : Obj :=
  deleteField (deleteField (deleteField proof "jws") "signatureValue") "proofValue"

/-- LinkedDataSignature.canonizeProof: reassigns the local proof variable to
a shallow copy, deletes jws, signatureValue and proofValue from that copy and
canonizes it. -/
def canonizeProof (c : Collab) (s : LinkedDataSignature) (proof : Obj) :
    Except JSError String :=
  canonize c s (.obj (stripSignatureFields proof))

/-- State-passing view of canonizeProof: alongside the canonization output,
the proof object as the caller still sees it after the call. The function
body rebinds its local variable to the spread copy before any delete, so the
deletes never touch the object the caller passed in. -/
def canonizeProofS (c : Collab) (s : LinkedDataSignature) (proof : Obj) :
    Except JSError String × Obj :=
  (canonizeProof c s proof, proof)

/-- LinkedDataSignature.createVerifyData: canonize the proof options, then
the document, digest each independently and concatenate the proof-options
digest first. -/
def createVerifyData (c : Collab) (s : LinkedDataSignature)
    (document : JSVal) (proof : Obj) : Except JSError (List Nat) := do
  let c14nProofOptions ← canonizeProof c s proof
  let c14nDocument ← canonize c s document
  pure (concatBytes (c.sha256 c14nProofOptions) (c.sha256 c14nDocument))

/-- The tail of the identity selection, applied to the chosen identity
source: extract the id property when the chosen value has JS type object
(recall typeof null is object, so property access on a null value throws),
then fail when the result is falsy. -/
def resolveChosen (vm1 : JSVal) : Except JSError JSVal := do
  let vm2 ← if jsTypeof vm1 == "object" then getProp vm1 "id" else pure vm1
  if truthy vm2 then
    pure vm2
  else
    throw (.jsError "No \"verificationMethod\" or \"creator\" found in proof.")

/-- The identity-selection prefix of getVerificationMethod: take
proof.verificationMethod, fall back to proof.creator when that value is
falsy, and continue with resolveChosen. -/
def resolveIdentity (proof : Obj) : Except JSError JSVal :=
  let vm0 := lookupField proof "verificationMethod"
  resolveChosen (if truthy vm0 then vm0 else lookupField proof "creator")

/-- LinkedDataSignature.getVerificationMethod: select the identity, frame it
through the document loader, fail when no node is framed, fail when the
framed node has a defined revoked property, and return the framed node. -/
def getVerificationMethod (c : Collab) (proof : Obj) : Except JSError Obj := do
  let verificationMethod ← resolveIdentity proof
  let framedOpt ← c.frame verificationMethod
  match framedOpt with
  | none =>
    throw (.jsError ("Verification method " ++ jsStr verificationMethod ++ " not found."))
  | some framed =>
    if isUndef (lookupField framed "revoked") then
      pure framed
    else
      throw (.jsError "The verification method has been revoked.")

/-- The error thrown when the signature primitive returns a falsy value. -/
def invalidSignatureError : JSError := .jsError "Invalid signature."

/-- The error thrown for a revoked verification method. -/
def revokedError : JSError := .jsError "The verification method has been revoked."

/-- The error thrown when neither verificationMethod nor creator selects an
identity. -/
def noIdentityError : JSError :=
  .jsError "No \"verificationMethod\" or \"creator\" found in proof."

/-- The error thrown when framing the identity yields no node. -/
def notFoundError (vm : JSVal) : JSError :=
  .jsError ("Verification method " ++ jsStr vm ++ " not found.")

/-- The proof-enrichment steps of createProof after the template is obtained
and before the hooks run: stamp the type, resolve the effective date (the
suite date when set, else the current time when the template has no created
value), convert a non-string date with w3cDate, store it in created when
defined, then stamp verificationMethod and creator when configured. -/
def stampProof (s : LinkedDataSignature) (now : Int) (w3cDate : JSVal → String)
    (proof0 : Obj) : Obj :=
  let proof := setField proof0 "type" (.str s.type)
  let date := s.date
  let date := if isUndef (lookupField proof "created") && isUndef date then
      JSVal.jsdate now else date
  let date := if !(isUndef date) && jsTypeof date != "string" then
      JSVal.str (w3cDate date) else date
  let proof := if !(isUndef date) then setField proof "created" date else proof
  let proof := if !(isUndef s.verificationMethod) then
      setField proof "verificationMethod" s.verificationMethod else proof
  let proof := if !(isUndef s.creator) then
      setField proof "creator" s.creator else proof
  proof

/-- LinkedDataSignature.createProof: obtain the base proof by compacting the
configured template (or start a fresh proof holding only the security
context), enrich it with stampProof, run the no-op updateProof hook, let the
purpose update it, build the verify data and hand it to the sign hook. -/
def createProof (c : Collab) (s : LinkedDataSignature) (document : JSVal) :
    Except JSError Obj := do
  let proof0 ←
    if truthy s.proof then c.compact s.proof
    else pure [("@context", JSVal.str securityContextUrl)]
  let proof1 := stampProof s c.now c.w3cDate proof0
  let proof2 := proof1
  let proof3 ← c.purposeUpdate proof2
  let verifyData ← createVerifyData c s document proof3
  let proof4 ← c.sign verifyData proof3
  pure proof4

/-- The steps verifyProof can start, in the order its body invokes them. -/
inductive Step : Type where
  | createVerifyDataStep : Step
  | getVerificationMethodStep : Step
  | verifySignatureStep : Step
  | purposeValidateStep : Step
deriving Repr, DecidableEq

/-- The try-block of verifyProof, instrumented with the list of steps it
started: build the verify data, resolve the verification method, check the
signature (a falsy return becomes an invalid-signature error), validate the
purpose and surface its carried error value when the judgment is negative.
Thrown values are Option JSError because the purpose may carry no error, in
which case the code throws undefined. -/
def verifyProofBody (c : Collab) (s : LinkedDataSignature) (proof : Obj)
    (document : JSVal) : Except (Option JSError) PurposeResult × List Step :=
  let tr := [Step.createVerifyDataStep]
  match createVerifyData c s document proof with
  | .error e => (.error (some e), tr)
  | .ok verifyData =>
    let tr := tr ++ [Step.getVerificationMethodStep]
    match getVerificationMethod c proof with
    | .error e => (.error (some e), tr)
    | .ok verificationMethod =>
      let tr := tr ++ [Step.verifySignatureStep]
      match c.verifySignature verifyData verificationMethod proof with
      | .error e => (.error (some e), tr)
      | .ok verified =>
        if truthy verified = false then (.error (some invalidSignatureError), tr)
        else
          let tr := tr ++ [Step.purposeValidateStep]
          match c.purposeValidate proof verificationMethod with
          | .error e => (.error (some e), tr)
          | .ok purposeResult =>
            if purposeResult.valid = false then (.error purposeResult.error, tr)
            else (.ok purposeResult, tr)

/-- The structured result verifyProof returns: on success the error slot is
absent and purposeResult is set; on failure the error slot holds the caught
value (some none models a caught undefined). -/
structure VerifyResult : Type where
  verified : Bool
  error : Option (Option JSError)
  purposeResult : Option PurposeResult
deriving Repr, DecidableEq

/-- LinkedDataSignature.verifyProof with its step trace: the catch-block
turns any thrown value into a verified-false result carrying it. -/
def verifyProofT (c : Collab) (s : LinkedDataSignature) (proof : Obj)
    (document : JSVal) : VerifyResult × List Step :=
  match verifyProofBody c s proof document with
  | (.ok purposeResult, tr) =>
    ({verified := true, error := none, purposeResult := some purposeResult}, tr)
  | (.error e, tr) =>
    ({verified := false, error := some e, purposeResult := none}, tr)

/-- LinkedDataSignature.verifyProof: the returned result alone. -/
def verifyProof (c : Collab) (s : LinkedDataSignature) (proof : Obj)
    (document : JSVal) : VerifyResult :=
  (verifyProofT c s proof document).1

/-- Modelled from the spec: the LinkedDataProof base-class constructor
invoked by super, whose file src/lib/suites/LinkedDataProof.js is not under
src/. The spec data model requires the suite type to be a string, so the
constructor accepts exactly string types, storing the type, and fails
otherwise. -/
def linkedDataProofCtor (type : JSVal) : Except JSError String :=
  match type with
  | .str s => .ok s
  | _ => .error (.typeError "A \"type\" string is required.")

/-- The named options the constructor destructures. -/
structure CtorOpts : Type where
  type : JSVal
  creator : JSVal
  verificationMethod : JSVal
  proof : JSVal
  date : JSVal
  useNativeCanonize : JSVal
deriving Repr

/-- The LinkedDataSignature constructor: validate that a defined
verificationMethod is a string, call super with the type, store creator,
verificationMethod and the proof template, and when a date is supplied parse
it as a Date (parseDate models the host new Date conversion; none is an
invalid date), failing on an unparsable date and storing the Date object
otherwise. -/
def construct (parseDate : JSVal → Option Int) (o : CtorOpts) :
    Except JSError LinkedDataSignature := do
  if !(isUndef o.verificationMethod) && jsTypeof o.verificationMethod != "string" then
    throw (.typeError "\"verificationMethod\" must be a URL string.")
  let type ← linkedDataProofCtor o.type
  let date ←
    if isUndef o.date then pure (JSVal.undef)
    else match parseDate o.date with
      | some t => pure (JSVal.jsdate t)
      | none => throw (.typeError ("\"date\" \"" ++ jsStr o.date ++ "\" is not a valid date."))
  pure { type := type, creator := o.creator,
         verificationMethod := o.verificationMethod, proof := o.proof,
         date := date, useNativeCanonize := o.useNativeCanonize }

/-- The error the constructor throws for a non-string verificationMethod. -/
def badVerificationMethodError : JSError :=
  .typeError "\"verificationMethod\" must be a URL string."

/-- The error the constructor throws for an unparsable date. -/
def badDateError (date : JSVal) : JSError :=
  .typeError ("\"date\" \"" ++ jsStr date ++ "\" is not a valid date.")

/-- State-passing view of createProof: alongside the result, the suite
instance as the caller sees it after the call. The method body only reads
the configuration fields (through this.proof, this.type, this.date,
this.verificationMethod, this.creator, this.useNativeCanonize) and assigns
none of them, so the instance handed back is the one passed in. -/
def createProofS (c : Collab) (s : LinkedDataSignature) (document : JSVal) :
    Except JSError Obj × LinkedDataSignature :=
  (createProof c s document, s)

/-- State-passing view of verifyProof: the method body reads the
configuration only, so the instance handed back is the one passed in. -/
def verifyProofS (c : Collab) (s : LinkedDataSignature) (proof : Obj)
    (document : JSVal) : VerifyResult × LinkedDataSignature :=
  (verifyProof c s proof document, s)

/-- The signature-bearing proof fields, as the spec names them. -/
def signatureFields : List String := ["jws", "signatureValue", "proofValue"]

/-- Specification-side proof options: a copy of the proof retaining exactly
the fields that are not signature-bearing. -/
def proofOptions (proof : Obj) : Obj :=
  proof.filter (fun q => !(signatureFields.contains q.1))

/-- Specification-side VerifyData, following the spec text: canonicalize the
proof options and the document independently, digest each, and concatenate
the proof-options digest followed by the document digest. -/
def verifyDataSpec (c : Collab) (s : LinkedDataSignature) (document : JSVal)
    (proof : Obj) : Except JSError (List Nat) := do
  let a ← canonize c s (.obj (proofOptions proof))
  let b ← canonize c s document
  pure (c.sha256 a ++ c.sha256 b)

/-- Amended description of the identity-selection tail: a chosen value with
JS type object has its id extracted (with the null chosen value raising the
property-access type error), while a falsy outcome fails with the
NotFound-style no-identity error. -/
def resolveChosenAmended (chosen : JSVal) : Except JSError JSVal :=
  match chosen with
  | .null => .error (.typeError "Cannot read properties of null (reading id)")
  | .obj fs =>
    if truthy (lookupField fs "id") then .ok (lookupField fs "id")
    else .error noIdentityError
  | .jsdate _ => .error noIdentityError
  | v => if truthy v then .ok v else .error noIdentityError

/-- Amended description of the identity selection: use verificationMethod
when truthy, fall back to creator otherwise, then continue as
resolveChosenAmended describes. -/
def resolveIdentityAmended (proof : Obj) : Except JSError JSVal :=
  let vm0 := lookupField proof "verificationMethod"
  resolveChosenAmended (if truthy vm0 then vm0 else lookupField proof "creator")

/-- Concrete collaborators for instantiating the theorems: canonization
stringifies, the digest is the byte length, framing finds nothing, the
signature primitive accepts everything and the purpose accepts. -/
def testCollab : Collab where
  jsonldCanonize := fun v _ => .ok (jsStr v)
  sha256 := fun s => [s.length]
  frame := fun _ => .ok none
  verifySignature := fun _ _ _ => .ok (.bool true)
  purposeValidate := fun _ _ => .ok { valid := true, error := none }
  purposeUpdate := fun p => .ok p
  sign := fun _ p => .ok (setField p "jws" (.str "sig"))
  compact := fun v => match v with | .obj fs => .ok fs | _ => .ok []
  w3cDate := fun _ => "2020-01-01T00:00:00Z"
  now := 1577836800

/-- Collaborators whose loader knows one revoked key (carrying
revoked: false, a defined marker) and one live key. -/
def revokedCollab : Collab :=
  { testCollab with
    frame := fun v => match v with
      | .str "did:key:rev" =>
        .ok (some [("id", .str "did:key:rev"), ("revoked", .bool false)])
      | .str "did:key:ok" => .ok (some [("id", .str "did:key:ok")])
      | _ => .ok none }

/-- A minimally configured suite instance. -/
def testSuite : LinkedDataSignature where
  type := "Ed25519Signature2018"
  creator := (.undef)
  verificationMethod := (.undef)
  proof := (.undef)
  date := (.undef)
  useNativeCanonize := (.undef)

/-- A suite whose configured date is already a string. -/
def suiteDateStr : LinkedDataSignature :=
  { testSuite with date := .str "2019-12-31T23:59:59Z" }

/-- A suite whose configured date is a Date object. -/
def suiteDateObj : LinkedDataSignature :=
  { testSuite with date := .jsdate 5 }

/-- A proof whose verificationMethod is present but empty, with a creator
fallback. -/
def proofEmptyVM : Obj :=
  [("verificationMethod", .str ""), ("creator", .str "did:key:alpha")]

/-- A proof naming the revoked key, carrying a signature field. -/
def proofRev : Obj :=
  [("verificationMethod", .str "did:key:rev"), ("jws", .str "h.p.s")]

/-- A proof naming the live key. -/
def proofOk : Obj := [("verificationMethod", .str "did:key:ok")]

/-- A proof naming a key the loader does not know. -/
def proofMissing : Obj := [("verificationMethod", .str "did:key:missing")]

/-- A compacted proof template that already carries a created value. -/
def proofWithCreated : Obj :=
  [("@context", .str securityContextUrl), ("created", .str "2018-05-05T00:00:00Z")]

/-- A compacted proof template without a created value. -/
def proofNoCreated : Obj := [("@context", .str securityContextUrl)]

/-- A deterministic stand-in for the w3cDate timestamp formatting. -/
def w3cTest : JSVal → String
  | .jsdate t => "w3c:" ++ toString t
  | _ => "w3c:other"

/-- A date parser recognizing one fixed date string. -/
def parseTest : JSVal → Option Int
  | .str "2020-01-01" => some 1577836800
  | _ => none

/-- A date parser recognizing nothing. -/
def parseNone : JSVal → Option Int := fun _ => none

/-- Constructor options with a good date and a string verificationMethod. -/
def optsGoodDate : CtorOpts where
  type := .str "Ed25519Signature2018"
  creator := (.undef)
  verificationMethod := .str "did:key:1"
  proof := (.undef)
  date := .str "2020-01-01"
  useNativeCanonize := (.undef)

/-- Constructor options with an unparsable date. -/
def optsBadDate : CtorOpts := { optsGoodDate with date := .str "bogus" }

/-- Constructor options whose creator is a defined non-string value. -/
def optsBadCreator : CtorOpts where
  type := .str "Ed25519Signature2018"
  creator := .obj []
  verificationMethod := (.undef)
  proof := (.undef)
  date := (.undef)
  useNativeCanonize := (.undef)

/-- The suite the constructor builds from optsBadCreator. -/
def suiteBadCreator : LinkedDataSignature where
  type := "Ed25519Signature2018"
  creator := .obj []
  verificationMethod := (.undef)
  proof := (.undef)
  date := (.undef)
  useNativeCanonize := (.undef)

/-- Constructor options whose verificationMethod is a defined non-string
value. -/
def optsBadVM : CtorOpts :=
  { optsBadCreator with creator := .undef, verificationMethod := .num 5 }

end LinkedDataSignature

namespace LinkedDataSignature

theorem lookupField_cons (a : String) (b : JSVal) (p : Obj) (k : String) :
    lookupField ((a, b) :: p) k = if a == k then b else lookupField p k := by
  by_cases h : a = k
  · subst h
    simp [lookupField, List.find?]
  · have hb : (a == k) = false := by simp [h]
    simp [lookupField, List.find?, hb]

theorem filter_map_replace (p : Obj) (f : String) (v : JSVal)
    (keep : String × JSVal → Bool) (hk : ∀ q : String × JSVal, q.1 = f → keep q = false) :
    (p.map (fun q => if q.1 == f then (f, v) else q)).filter keep = p.filter keep := by
  rw [List.filter_map]
  have hcomp : ∀ q ∈ p, (keep ∘ fun q => if q.1 == f then (f, v) else q) q = keep q := by
    intro q _
    by_cases h : q.1 = f
    · have hb : (q.1 == f) = true := by simp [h]
      simp only [Function.comp_apply, hb, if_true]
      rw [hk (f, v) rfl, hk q h]
    · have hbne : ¬((q.1 == f) = true) := by simp [h]
      simp only [Function.comp_apply]
      rw [if_neg hbne]
  rw [List.filter_congr hcomp]
  have hid : ∀ q ∈ p.filter keep, (fun q => if q.1 == f then (f, v) else q) q = q := by
    intro q hq
    have hkq : keep q = true := List.of_mem_filter hq
    by_cases h : q.1 = f
    · rw [hk q h] at hkq
      cases hkq
    · have hb : (q.1 == f) = false := by simp [h]
      simp [hb]
  rw [List.map_congr_left hid]
  simp

theorem filter_setField (p : Obj) (f : String) (v : JSVal)
    (keep : String × JSVal → Bool) (hk : ∀ q : String × JSVal, q.1 = f → keep q = false) :
    (setField p f v).filter keep = p.filter keep := by
  unfold setField
  split
  · exact filter_map_replace p f v keep hk
  · rw [List.filter_append]
    have h2 : keep (f, v) = false := hk (f, v) rfl
    simp [List.filter, h2]

/-- The three deletes of canonizeProof compute exactly the spec-side proof
options. -/
theorem stripSignatureFields_eq_proofOptions (p : Obj) :
    stripSignatureFields p = proofOptions p := by
  unfold stripSignatureFields proofOptions deleteField signatureFields
  rw [List.filter_filter, List.filter_filter]
  apply List.filter_congr
  intro q _
  by_cases h1 : q.1 = "jws" <;> by_cases h2 : q.1 = "signatureValue" <;>
    by_cases h3 : q.1 = "proofValue" <;> simp_all

theorem contains_of_mem_signatureFields (f : String) (hf : f ∈ signatureFields) :
    signatureFields.contains f = true := by
  fin_cases hf <;> decide

theorem stripSignatureFields_setField (p : Obj) (f : String) (v : JSVal)
    (hf : f ∈ signatureFields) :
    stripSignatureFields (setField p f v) = stripSignatureFields p := by
  rw [stripSignatureFields_eq_proofOptions, stripSignatureFields_eq_proofOptions]
  unfold proofOptions
  apply filter_setField
  intro q hq
  rw [hq, contains_of_mem_signatureFields f hf]
  rfl

theorem stripSignatureFields_deleteField (p : Obj) (f : String)
    (hf : f ∈ signatureFields) :
    stripSignatureFields (deleteField p f) = stripSignatureFields p := by
  rw [stripSignatureFields_eq_proofOptions, stripSignatureFields_eq_proofOptions]
  unfold proofOptions deleteField
  rw [List.filter_filter]
  apply List.filter_congr
  intro q _
  show (!(signatureFields.contains q.1) && (q.1 != f)) = !(signatureFields.contains q.1)
  by_cases h : q.1 = f
  · have hc : signatureFields.contains q.1 = true := by
      rw [h]
      exact contains_of_mem_signatureFields f hf
    rw [hc]
    simp
  · have hb : (q.1 != f) = true := by simp [h]
    rw [hb, Bool.and_true]

theorem lookupField_map_replace_self (p : Obj) (k : String) (v : JSVal)
    (h : (p.find? (fun q => q.1 == k)).isSome = true) :
    lookupField (p.map (fun q => if q.1 == k then (k, v) else q)) k = v := by
  induction p with
  | nil => simp [List.find?] at h
  | cons a p ih =>
    by_cases ha : a.1 = k
    · have hb : (a.1 == k) = true := by simp [ha]
      rw [List.map_cons, if_pos hb, lookupField_cons]
      simp
    · have hb : (a.1 == k) = false := by simp [ha]
      have hbne : ¬((a.1 == k) = true) := by simp [ha]
      rw [List.map_cons, if_neg hbne, lookupField_cons, if_neg hbne]
      rw [List.find?_cons, hb] at h
      exact ih h

theorem lookupField_append_single_self (p : Obj) (k : String) (v : JSVal)
    (h : (p.find? (fun q => q.1 == k)).isSome = false) :
    lookupField (p ++ [(k, v)]) k = v := by
  induction p with
  | nil => simp [lookupField, List.find?]
  | cons a p ih =>
    rw [List.find?_cons] at h
    rw [List.cons_append, lookupField_cons]
    cases hb : (a.1 == k) with
    | true => rw [hb] at h; simp at h
    | false =>
      rw [if_neg (by simp [hb])]
      rw [hb] at h
      exact ih h

theorem lookupField_setField_self (p : Obj) (k : String) (v : JSVal) :
    lookupField (setField p k v) k = v := by
  unfold setField
  split
  · exact lookupField_map_replace_self p k v (by assumption)
  · rename_i hn
    exact lookupField_append_single_self p k v (by rw [Bool.eq_false_iff]; exact hn)

theorem lookupField_map_replace_other (p : Obj) (k : String) (v : JSVal)
    (x : String) (hx : k ≠ x) :
    lookupField (p.map (fun q => if q.1 == k then (k, v) else q)) x = lookupField p x := by
  induction p with
  | nil => rfl
  | cons a p ih =>
    by_cases ha : a.1 = k
    · have hb : (a.1 == k) = true := by simp [ha]
      rw [List.map_cons, if_pos hb, lookupField_cons, lookupField_cons]
      have h1 : ¬((k == x) = true) := by simp [hx]
      have h2 : ¬((a.1 == x) = true) := by simp [ha, hx]
      rw [if_neg h1, if_neg h2, ih]
    · have hbne : ¬((a.1 == k) = true) := by simp [ha]
      rw [List.map_cons, if_neg hbne, lookupField_cons, lookupField_cons, ih]

theorem lookupField_append_single_other (p : Obj) (k : String) (v : JSVal)
    (x : String) (hx : k ≠ x) :
    lookupField (p ++ [(k, v)]) x = lookupField p x := by
  induction p with
  | nil =>
    rw [List.nil_append, lookupField_cons, if_neg (by simp [hx])]
  | cons a p ih =>
    rw [List.cons_append, lookupField_cons, lookupField_cons, ih]

theorem lookupField_setField_other (p : Obj) (k : String) (v : JSVal)
    (x : String) (hx : k ≠ x) :
    lookupField (setField p k v) x = lookupField p x := by
  unfold setField
  split
  · exact lookupField_map_replace_other p k v x hx
  · exact lookupField_append_single_other p k v x hx

theorem exceptBindOk {α β ε : Type} (a : α) (f : α → Except ε β) :
    (Except.ok a : Except ε α) >>= f = f a := rfl

theorem exceptPureBind {α β ε : Type} (a : α) (f : α → Except ε β) :
    (pure a : Except ε α) >>= f = f a := rfl

theorem resolveChosen_eq_amended (v : JSVal) :
    resolveChosen v = resolveChosenAmended v := by
  cases v <;> rfl

/-- C1: verifyProof is a total function of its inputs that never propagates
a thrown value: whichever internal step of its try-block fails (verify-data
construction, verification-method resolution, a falsy signature check, or an
invalid purpose result), the result is verified false carrying the caught
error payload and no purpose result, and on full success the result is
verified true with the purpose result and no error. -/
theorem verifyProof_never_raises (c : Collab) (s : LinkedDataSignature)
    (proof : Obj) (document : JSVal) :
    (∃ pr tr, verifyProofBody c s proof document = (.ok pr, tr) ∧
      verifyProof c s proof document =
        { verified := true, error := none, purposeResult := some pr }) ∨
    (∃ e tr, verifyProofBody c s proof document = (.error e, tr) ∧
      verifyProof c s proof document =
        { verified := false, error := some e, purposeResult := none }) := by
  rcases h : verifyProofBody c s proof document with ⟨res, tr⟩
  cases res with
  | ok pr =>
    left
    refine ⟨pr, tr, rfl, ?_⟩
    unfold verifyProof verifyProofT
    rw [h]
  | error e =>
    right
    refine ⟨e, tr, rfl, ?_⟩
    unfold verifyProof verifyProofT
    rw [h]

/-- C2: createVerifyData computes exactly the concatenation of the digest of
the canonicalized proof options (the proof with jws, signatureValue and
proofValue removed) followed by the digest of the canonicalized document,
with the same digest and the same canonicalization applied to each part
independently. -/
theorem createVerifyData_meets_spec (c : Collab) (s : LinkedDataSignature)
    (document : JSVal) (proof : Obj) :
    createVerifyData c s document proof = verifyDataSpec c s document proof := by
  unfold createVerifyData verifyDataSpec canonizeProof
  rw [stripSignatureFields_eq_proofOptions]
  rfl

/-- C3: the computed VerifyData is unchanged when a signature-bearing field
(jws, signatureValue or proofValue) is added to or removed from the proof
before canonicalization, and the stripping operates on a copy: the proof
object the caller sees after canonizeProof is the one passed in. -/
theorem createVerifyData_ignores_signature_fields (c : Collab)
    (s : LinkedDataSignature) (document : JSVal) (proof : Obj) (f : String)
    (v : JSVal) (hf : f ∈ signatureFields) :
    createVerifyData c s document (setField proof f v) =
      createVerifyData c s document proof ∧
    createVerifyData c s document (deleteField proof f) =
      createVerifyData c s document proof ∧
    (canonizeProofS c s proof).2 = proof := by
  refine ⟨?_, ?_, rfl⟩
  · unfold createVerifyData canonizeProof
    rw [stripSignatureFields_setField proof f v hf]
  · unfold createVerifyData canonizeProof
    rw [stripSignatureFields_deleteField proof f hf]

/-- Witness for C3: concrete check at the jws field. -/
theorem createVerifyData_ignores_signature_fields_witness :
    ("jws" : String) ∈ signatureFields ∧
    createVerifyData testCollab testSuite (.obj [("a", .num 1)])
        (setField [("type", .str "T")] "jws" (.str "h.p.s")) =
      createVerifyData testCollab testSuite (.obj [("a", .num 1)])
        [("type", .str "T")] :=
  ⟨by decide,
   (createVerifyData_ignores_signature_fields testCollab testSuite
     (.obj [("a", .num 1)]) [("type", .str "T")] "jws" (.str "h.p.s")
     (by decide)).1⟩

/-- C4: when the resolved verification method carries a revocation marker,
getVerificationMethod fails with the revoked error, and verifyProof returns
verified false with that error even when the signature primitive would
accept every input; the step trace shows the signature-verification step is
never started, resolution being a hard gate before it. -/
theorem verifyProof_revocation_gate (c : Collab) (s : LinkedDataSignature)
    (proof : Obj) (document : JSVal) (po cd : String) (vmId : JSVal)
    (framed : Obj)
    (h1 : canonizeProof c s proof = .ok po)
    (h2 : canonize c s document = .ok cd)
    (h3 : resolveIdentity proof = .ok vmId)
    (h4 : c.frame vmId = .ok (some framed))
    (h5 : isUndef (lookupField framed "revoked") = false)
    (_hsig : ∀ vd vm pf, c.verifySignature vd vm pf = .ok (.bool true)) :
    getVerificationMethod c proof = .error revokedError ∧
    verifyProof c s proof document =
      { verified := false, error := some (some revokedError),
        purposeResult := none } ∧
    Step.verifySignatureStep ∉ (verifyProofT c s proof document).2 := by
  have hcvd : createVerifyData c s document proof =
      .ok (concatBytes (c.sha256 po) (c.sha256 cd)) := by
    simp only [createVerifyData, h1, h2, exceptBindOk]
    rfl
  have hgvm : getVerificationMethod c proof = .error revokedError := by
    simp only [getVerificationMethod, h3, h4, h5, exceptBindOk]
    rfl
  have hbody : verifyProofBody c s proof document =
      (.error (some revokedError),
        [Step.createVerifyDataStep, Step.getVerificationMethodStep]) := by
    unfold verifyProofBody
    rw [hcvd, hgvm]
    rfl
  refine ⟨hgvm, ?_, ?_⟩
  · unfold verifyProof verifyProofT
    rw [hbody]
  · unfold verifyProofT
    rw [hbody]
    decide

/-- Witness for C4: the revoked key of revokedCollab, whose signature
primitive accepts everything. -/
theorem verifyProof_revocation_gate_witness :
    verifyProof revokedCollab testSuite proofRev (.obj []) =
      { verified := false, error := some (some revokedError),
        purposeResult := none } :=
  (verifyProof_revocation_gate revokedCollab testSuite proofRev (.obj [])
    "[object Object]" "[object Object]" (.str "did:key:rev")
    [("id", .str "did:key:rev"), ("revoked", .bool false)]
    rfl rfl rfl rfl rfl (fun _ _ _ => rfl)).2.1

/-- C10: after a successful identity selection and framing, the revocation
gate tests only whether the revoked property is defined: any defined value,
including false or null, fails with the revoked error, and only an entirely
absent revoked property lets the framed node be returned. -/
theorem getVerificationMethod_revocation_definedness (c : Collab)
    (proof : Obj) (vmId : JSVal) (framed : Obj)
    (h3 : resolveIdentity proof = .ok vmId)
    (h4 : c.frame vmId = .ok (some framed)) :
    (isUndef (lookupField framed "revoked") = false →
      getVerificationMethod c proof = .error revokedError) ∧
    (isUndef (lookupField framed "revoked") = true →
      getVerificationMethod c proof = .ok framed) := by
  constructor
  · intro h5
    simp only [getVerificationMethod, h3, h4, h5, exceptBindOk]
    rfl
  · intro h5
    simp only [getVerificationMethod, h3, h4, h5, exceptBindOk]
    rfl

/-- Witness for C10: a node carrying revoked false is rejected exactly as a
truthy marker would be, and a node without the property passes. -/
theorem getVerificationMethod_revocation_definedness_witness :
    getVerificationMethod revokedCollab proofRev = .error revokedError ∧
    getVerificationMethod revokedCollab proofOk = .ok [("id", .str "did:key:ok")] :=
  ⟨(getVerificationMethod_revocation_definedness revokedCollab proofRev
      (.str "did:key:rev") [("id", .str "did:key:rev"), ("revoked", .bool false)]
      rfl rfl).1 rfl,
   (getVerificationMethod_revocation_definedness revokedCollab proofOk
      (.str "did:key:ok") [("id", .str "did:key:ok")] rfl rfl).2 rfl⟩

/-- C5 counterexample: a proof whose verificationMethod is present (defined)
but equal to the empty string resolves the creator value instead, so the
selection keys on truthiness, not presence. -/
theorem resolveIdentity_empty_string_fallback :
    isUndef (lookupField proofEmptyVM "verificationMethod") = false ∧
    lookupField proofEmptyVM "verificationMethod" = .str "" ∧
    resolveIdentity proofEmptyVM = .ok (.str "did:key:alpha") ∧
    JSVal.str "did:key:alpha" ≠ JSVal.str "" :=
  ⟨rfl, rfl, rfl, by simp⟩

/-- C5 (amended): getVerificationMethod uses proof.verificationMethod when
it is truthy and otherwise falls back to proof.creator; a chosen value of JS
object type has its id field extracted (a null chosen value raising a
property-access type error instead); a falsy final value fails with the
NotFound-style no-identity error; and framing that yields no node fails with
the NotFound-style not-found error. -/
theorem getVerificationMethod_identity_selection :
    (∀ proof : Obj, resolveIdentity proof = resolveIdentityAmended proof) ∧
    (∀ (c : Collab) (proof : Obj) (vmId : JSVal),
      resolveIdentity proof = .ok vmId → c.frame vmId = .ok none →
      getVerificationMethod c proof = .error (notFoundError vmId)) := by
  constructor
  · intro proof
    unfold resolveIdentity resolveIdentityAmended
    exact resolveChosen_eq_amended _
  · intro c proof vmId h3 h4
    simp only [getVerificationMethod, h3, h4, exceptBindOk]
    rfl

/-- Witness for C5 (amended): the characterization at the empty-string
proof and the not-found error for an unknown key. -/
theorem getVerificationMethod_identity_selection_witness :
    resolveIdentity proofEmptyVM = resolveIdentityAmended proofEmptyVM ∧
    getVerificationMethod testCollab proofMissing =
      .error (notFoundError (.str "did:key:missing")) :=
  ⟨getVerificationMethod_identity_selection.1 proofEmptyVM,
   getVerificationMethod_identity_selection.2 testCollab proofMissing
     (.str "did:key:missing") rfl rfl⟩

theorem lookupField_setCreated_ite (p0 : Obj) (ty : String) (d : JSVal)
    (c : Bool) :
    lookupField (if c then setField (setField p0 "type" (.str ty)) "created" d
      else setField p0 "type" (.str ty)) "created" =
      (if c then d else lookupField p0 "created") := by
  cases c with
  | false =>
    rw [if_neg (by simp), if_neg (by simp)]
    exact lookupField_setField_other _ _ _ _ (by decide)
  | true =>
    rw [if_pos rfl, if_pos rfl]
    exact lookupField_setField_self _ _ _

theorem stampProof_created_eq (s : LinkedDataSignature) (now : Int)
    (w3c : JSVal → String) (p0 : Obj) :
    lookupField (stampProof s now w3c p0) "created" =
      (let date1 := if isUndef (lookupField p0 "created") && isUndef s.date
          then JSVal.jsdate now else s.date
       let date2 := if !(isUndef date1) && jsTypeof date1 != "string"
          then JSVal.str (w3c date1) else date1
       if !(isUndef date2) then date2 else lookupField p0 "created") := by
  have hlc : lookupField (setField p0 "type" (JSVal.str s.type)) "created"
      = lookupField p0 "created" :=
    lookupField_setField_other _ _ _ _ (by decide)
  have hskipC : ∀ o : Obj,
      lookupField (if !(isUndef s.creator) then setField o "creator" s.creator else o)
        "created" = lookupField o "created" := by
    intro o
    split
    · exact lookupField_setField_other _ _ _ _ (by decide)
    · rfl
  have hskipV : ∀ o : Obj,
      lookupField
        (if !(isUndef s.verificationMethod) then
          setField o "verificationMethod" s.verificationMethod else o)
        "created" = lookupField o "created" := by
    intro o
    split
    · exact lookupField_setField_other _ _ _ _ (by decide)
    · rfl
  unfold stampProof
  simp only [hlc]
  rw [hskipC, hskipV, lookupField_setCreated_ite]

/-- C6: the created timestamp stamped onto the proof by createProof follows
the precedence suite-configured date first, then the compacted template
created value, then the current time, with any non-string date value
converted through the w3cDate textual timestamp format before storage. -/
theorem stampProof_created_precedence (s : LinkedDataSignature) (now : Int)
    (w3c : JSVal → String) (p0 : Obj) :
    (isUndef s.date = false → jsTypeof s.date = "string" →
      lookupField (stampProof s now w3c p0) "created" = s.date) ∧
    (isUndef s.date = false → jsTypeof s.date ≠ "string" →
      lookupField (stampProof s now w3c p0) "created" = .str (w3c s.date)) ∧
    (isUndef s.date = true → isUndef (lookupField p0 "created") = false →
      lookupField (stampProof s now w3c p0) "created" = lookupField p0 "created") ∧
    (isUndef s.date = true → isUndef (lookupField p0 "created") = true →
      lookupField (stampProof s now w3c p0) "created" = .str (w3c (.jsdate now))) := by
  refine ⟨?_, ?_, ?_, ?_⟩
  · intro hd hstr
    rw [stampProof_created_eq]
    simp [hd, hstr]
  · intro hd hnstr
    have hb : (jsTypeof s.date != "string") = true := by simp [hnstr]
    have h2 : isUndef (JSVal.str (w3c s.date)) = false := rfl
    rw [stampProof_created_eq]
    simp [hd, hb, h2]
  · intro hdt hc
    rw [stampProof_created_eq]
    simp [hdt, hc]
  · intro hdt hc
    have ha : isUndef (JSVal.jsdate now) = false := rfl
    have hb2 : jsTypeof (JSVal.jsdate now) = "object" := rfl
    have h3 : isUndef (JSVal.str (w3c (JSVal.jsdate now))) = false := rfl
    rw [stampProof_created_eq]
    simp [hdt, hc, ha, hb2, h3]

/-- Witness for C6: all four precedence branches at concrete inputs. -/
theorem stampProof_created_precedence_witness :
    lookupField (stampProof suiteDateStr 7 w3cTest proofNoCreated) "created" =
      .str "2019-12-31T23:59:59Z" ∧
    lookupField (stampProof suiteDateObj 7 w3cTest proofNoCreated) "created" =
      .str (w3cTest (.jsdate 5)) ∧
    lookupField (stampProof testSuite 7 w3cTest proofWithCreated) "created" =
      .str "2018-05-05T00:00:00Z" ∧
    lookupField (stampProof testSuite 7 w3cTest proofNoCreated) "created" =
      .str (w3cTest (.jsdate 7)) :=
  ⟨(stampProof_created_precedence suiteDateStr 7 w3cTest proofNoCreated).1
      rfl rfl,
   (stampProof_created_precedence suiteDateObj 7 w3cTest proofNoCreated).2.1
      rfl (by decide),
   ((stampProof_created_precedence testSuite 7 w3cTest proofWithCreated).2.2.1
      rfl rfl).trans rfl,
   (stampProof_created_precedence testSuite 7 w3cTest proofNoCreated).2.2.2
      rfl rfl⟩

/-- C7: with the verificationMethod check passing and a string type, a
supplied date that does not parse makes construction fail with the
ConfigurationError-style date TypeError (the constructor involves no network
or cryptographic work), while a parsable date is stored as a Date object on
the successfully constructed suite. -/
theorem construct_date_validation (parseDate : JSVal → Option Int)
    (o : CtorOpts) (ty : String)
    (hvm : (!(isUndef o.verificationMethod) &&
      jsTypeof o.verificationMethod != "string") = false)
    (htype : o.type = .str ty)
    (hdate : isUndef o.date = false) :
    (parseDate o.date = none →
      construct parseDate o = .error (badDateError o.date)) ∧
    (∀ t, parseDate o.date = some t →
      construct parseDate o = .ok
        { type := ty, creator := o.creator,
          verificationMethod := o.verificationMethod, proof := o.proof,
          date := .jsdate t, useNativeCanonize := o.useNativeCanonize }) := by
  constructor
  · intro hp
    simp only [construct, hvm, htype, hdate, hp, linkedDataProofCtor,
      badDateError, exceptBindOk, exceptPureBind, Bool.false_eq_true,
      if_false, ite_false]
    rfl
  · intro t hp
    simp only [construct, hvm, htype, hdate, hp, linkedDataProofCtor,
      exceptBindOk, exceptPureBind, Bool.false_eq_true, if_false, ite_false]
    rfl

/-- Witness for C7: the bogus date fails, the recognized date is stored. -/
theorem construct_date_validation_witness :
    construct parseTest optsBadDate = .error (badDateError (.str "bogus")) ∧
    construct parseTest optsGoodDate = .ok
      { type := "Ed25519Signature2018", creator := .undef,
        verificationMethod := .str "did:key:1", proof := .undef,
        date := .jsdate 1577836800, useNativeCanonize := .undef } :=
  ⟨(construct_date_validation parseTest optsBadDate "Ed25519Signature2018"
      rfl rfl rfl).1 rfl,
   (construct_date_validation parseTest optsGoodDate "Ed25519Signature2018"
      rfl rfl rfl).2 1577836800 rfl⟩

/-- C8 counterexample: construction succeeds although the creator argument
is a defined non-string value, so the identity type check does not extend to
creator. -/
theorem construct_accepts_nonstring_creator :
    isUndef optsBadCreator.creator = false ∧
    jsTypeof optsBadCreator.creator ≠ "string" ∧
    construct parseNone optsBadCreator = .ok suiteBadCreator :=
  ⟨rfl, by decide, rfl⟩

/-- C8 (amended): only the verificationMethod argument is type-checked at
construction: a defined non-string verificationMethod fails with the
ConfigurationError-style TypeError, while a non-string creator is stored
unchecked. -/
theorem construct_verificationMethod_type_check (parseDate : JSVal → Option Int)
    (o : CtorOpts)
    (h1 : isUndef o.verificationMethod = false)
    (h2 : jsTypeof o.verificationMethod ≠ "string") :
    construct parseDate o = .error badVerificationMethodError := by
  have hg : (!(isUndef o.verificationMethod) &&
      jsTypeof o.verificationMethod != "string") = true := by
    rw [h1]
    simp [h2]
  simp only [construct, hg, if_true, badVerificationMethodError]
  rfl

/-- Witness for C8 (amended): a numeric verificationMethod is rejected. -/
theorem construct_verificationMethod_type_check_witness :
    construct parseNone optsBadVM = .error badVerificationMethodError :=
  construct_verificationMethod_type_check parseNone optsBadVM rfl (by decide)

/-- C9: neither createProof nor verifyProof mutates the per-session suite
configuration: every field set at construction has, on the instance the
caller sees after either call, the value it had before the call. -/
theorem suite_configuration_immutable (c : Collab) (s : LinkedDataSignature)
    (document : JSVal) (proof : Obj) :
    ((createProofS c s document).2.type = s.type ∧
     (createProofS c s document).2.creator = s.creator ∧
     (createProofS c s document).2.verificationMethod = s.verificationMethod ∧
     (createProofS c s document).2.proof = s.proof ∧
     (createProofS c s document).2.date = s.date ∧
     (createProofS c s document).2.useNativeCanonize = s.useNativeCanonize) ∧
    ((verifyProofS c s proof document).2.type = s.type ∧
     (verifyProofS c s proof document).2.creator = s.creator ∧
     (verifyProofS c s proof document).2.verificationMethod = s.verificationMethod ∧
     (verifyProofS c s proof document).2.proof = s.proof ∧
     (verifyProofS c s proof document).2.date = s.date ∧
     (verifyProofS c s proof document).2.useNativeCanonize = s.useNativeCanonize) :=
  ⟨⟨rfl, rfl, rfl, rfl, rfl, rfl⟩, ⟨rfl, rfl, rfl, rfl, rfl, rfl⟩⟩

end LinkedDataSignature

end JsonldSignatures
